import Mathlib

/-!
Verification of the ProtonVPN NetworkManager backend (python-proton-vpn-network-manager).

This file shallowly embeds the parts of the code base relevant to the verified
properties:

* the VPN state-changed signal handler `LinuxNetworkManager._on_state_changed`
  (core/networkmanager.py) and its numeric-enum parsing,
* the WireGuard signal handler `Wireguard._on_state_changed`
  (protocol/wireguard/wireguard.py),
* the connection start orchestration `LinuxNetworkManager.start`,
* the TCP reachability check `tcpcheck.is_any_port_reachable`,
* the default kill switch (`NMKillSwitch.enable`/`disable` and
  `KillSwitchConnectionHandler` of killswitch/default),
* the WireGuard kill switch route polling
  (`KillSwitchConnectionHandler._wait_for_vpn_server_route`),
* the local agent listener (`AgentListener` of
  protocol/wireguard/local_agent/listener.py).

Stateful Python code is embedded as explicit state passing; daemon calls and
emitted events are recorded in traces; fallible code returns `Except`.
-/

namespace ProtonNM

/-- Python exceptions that the embedded code can raise. -/
inductive PyError
  | valueError (message : String)
  | attributeError (message : String)
  | timeoutError (message : String)
deriving DecidableEq

/-- GLib.GError raised by failed NetworkManager daemon operations. -/
inductive GLibError
  | gerror
deriving DecidableEq

/-! ### NM enums (libnm values, as enumerated in the NM GObject introspection data
and mirrored by the doc comments of enum.py) -/

/-- NM.VpnConnectionState: values 0..7. -/
inductive VpnConnectionState
  | UNKNOWN
  | PREPARE
  | NEED_AUTH
  | CONNECT
  | IP_CONFIG_GET
  | ACTIVATED
  | FAILED
  | DISCONNECTED
deriving DecidableEq

/-- NM.VpnConnectionStateReason: values 0..11. -/
inductive VpnConnectionStateReason
  | UNKNOWN
  | NONE
  | USER_DISCONNECTED
  | DEVICE_DISCONNECTED
  | SERVICE_STOPPED
  | IP_CONFIG_INVALID
  | CONNECT_TIMEOUT
  | SERVICE_START_TIMEOUT
  | SERVICE_START_FAILED
  | NO_SECRETS
  | LOGIN_FAILED
  | CONNECTION_REMOVED
deriving DecidableEq

/-- NM.ActiveConnectionState: values 0..4. -/
inductive ActiveConnectionState
  | UNKNOWN
  | ACTIVATING
  | ACTIVATED
  | DEACTIVATING
  | DEACTIVATED
deriving DecidableEq

/-- NM.ActiveConnectionStateReason: values 0..14. -/
inductive ActiveConnectionStateReason
  | UNKNOWN
  | NONE
  | USER_DISCONNECTED
  | DEVICE_DISCONNECTED
  | SERVICE_STOPPED
  | IP_CONFIG_INVALID
  | CONNECT_TIMEOUT
  | SERVICE_START_TIMEOUT
  | SERVICE_START_FAILED
  | NO_SECRETS
  | LOGIN_FAILED
  | CONNECTION_REMOVED
  | DEPENDENCY_FAILED
  | DEVICE_REALIZE_FAILED
  | DEVICE_REMOVED
deriving DecidableEq

/-- PyGObject conversion `NM.VpnConnectionState(n)`: returns the member for an
in-range value and raises ValueError otherwise. -/
def vpnConnectionStateOfNat (n : Nat) : Except PyError VpnConnectionState :=
  match n with
  | 0 => .ok .UNKNOWN
  | 1 => .ok .PREPARE
  | 2 => .ok .NEED_AUTH
  | 3 => .ok .CONNECT
  | 4 => .ok .IP_CONFIG_GET
  | 5 => .ok .ACTIVATED
  | 6 => .ok .FAILED
  | 7 => .ok .DISCONNECTED
  | _ => .error (.valueError "not a valid VpnConnectionState")

/-- PyGObject conversion `NM.VpnConnectionStateReason(n)`. -/
def vpnConnectionStateReasonOfNat (n : Nat) : Except PyError VpnConnectionStateReason :=
  match n with
  | 0 => .ok .UNKNOWN
  | 1 => .ok .NONE
  | 2 => .ok .USER_DISCONNECTED
  | 3 => .ok .DEVICE_DISCONNECTED
  | 4 => .ok .SERVICE_STOPPED
  | 5 => .ok .IP_CONFIG_INVALID
  | 6 => .ok .CONNECT_TIMEOUT
  | 7 => .ok .SERVICE_START_TIMEOUT
  | 8 => .ok .SERVICE_START_FAILED
  | 9 => .ok .NO_SECRETS
  | 10 => .ok .LOGIN_FAILED
  | 11 => .ok .CONNECTION_REMOVED
  | _ => .error (.valueError "not a valid VpnConnectionStateReason")

/-- The try/except ValueError block of `LinuxNetworkManager._on_state_changed`:
unknown numeric states fall back to the UNKNOWN sentinel. -/
def parseVpnConnectionState (n : Nat) : VpnConnectionState :=
  match vpnConnectionStateOfNat n with
  | .ok s => s
  | .error _ => .UNKNOWN

/-- The try/except ValueError block of `LinuxNetworkManager._on_state_changed`:
unknown numeric reasons fall back to the UNKNOWN sentinel. -/
def parseVpnConnectionStateReason (n : Nat) : VpnConnectionStateReason :=
  match vpnConnectionStateReasonOfNat n with
  | .ok r => r
  | .error _ => .UNKNOWN

/-- Backend-agnostic connection events (proton.vpn.connection.events), with the
reason payload the backend puts in the event context where it passes one. -/
inductive ConnectionEvent
  | Connected
  | Disconnected (reason : Option VpnConnectionStateReason)
  | Timeout (reason : Option VpnConnectionStateReason)
  | AuthDenied (reason : VpnConnectionStateReason)
  | TunnelSetupFailed (error : VpnConnectionStateReason)
  | DeviceDisconnected (reason : VpnConnectionStateReason)
  | UnexpectedError (reason : VpnConnectionStateReason)
  | ExpiredCertificate
  | MaximumSessionsReached
  | Initialized
deriving DecidableEq

/-- Body of `LinuxNetworkManager._on_state_changed` after enum parsing: the
if/elif chain translating (state, reason) into the event notified to
subscribers; `none` when the state change is only logged and ignored. -/
def translateVpnStateChange (state : VpnConnectionState)
    (reason : VpnConnectionStateReason) : Option ConnectionEvent :=
  if state = .ACTIVATED then
    some .Connected
  else if state = .FAILED then
    if reason = .CONNECT_TIMEOUT ∨ reason = .SERVICE_START_TIMEOUT then
      some (.Timeout (some reason))
    else if reason = .NO_SECRETS ∨ reason = .LOGIN_FAILED then
      some (.AuthDenied reason)
    else
      some (.UnexpectedError reason)
  else if state = .DISCONNECTED then
    if reason = .USER_DISCONNECTED then
      some (.Disconnected (some reason))
    else if reason = .DEVICE_DISCONNECTED then
      some (.DeviceDisconnected reason)
    else
      some (.UnexpectedError reason)
  else
    none

/-- The full signal handler `LinuxNetworkManager._on_state_changed`: numeric
codes are parsed (unknown codes normalized to the UNKNOWN sentinel) and the
translation chain is applied. -/
def on_state_changed (state reason : Nat) : Option ConnectionEvent :=
  translateVpnStateChange (parseVpnConnectionState state)
    (parseVpnConnectionStateReason reason)

/-- Translation table of spec section 4.2, transcribed from the spec text
(not from the code): ACTIVATED maps to Connected; FAILED with
CONNECT_TIMEOUT or SERVICE_START_TIMEOUT maps to Timeout; FAILED with
NO_SECRETS or LOGIN_FAILED maps to AuthDenied; FAILED with any other reason
maps to UnexpectedError; DISCONNECTED with USER_DISCONNECTED maps to
Disconnected; DISCONNECTED with DEVICE_DISCONNECTED maps to
DeviceDisconnected; DISCONNECTED with any other reason maps to
UnexpectedError; any other state is ignored. -/
def specActivationTable (state : VpnConnectionState)
    (reason : VpnConnectionStateReason) : Option ConnectionEvent :=
  match state, reason with
  | .ACTIVATED, _ => some .Connected
  | .FAILED, .CONNECT_TIMEOUT => some (.Timeout (some .CONNECT_TIMEOUT))
  | .FAILED, .SERVICE_START_TIMEOUT => some (.Timeout (some .SERVICE_START_TIMEOUT))
  | .FAILED, .NO_SECRETS => some (.AuthDenied .NO_SECRETS)
  | .FAILED, .LOGIN_FAILED => some (.AuthDenied .LOGIN_FAILED)
  | .FAILED, r => some (.UnexpectedError r)
  | .DISCONNECTED, .USER_DISCONNECTED => some (.Disconnected (some .USER_DISCONNECTED))
  | .DISCONNECTED, .DEVICE_DISCONNECTED => some (.DeviceDisconnected .DEVICE_DISCONNECTED)
  | .DISCONNECTED, r => some (.UnexpectedError r)
  | _, _ => none

/-! ### WireGuard signal handler (protocol/wireguard/wireguard.py) -/

/-- PyGObject conversion `NM.ActiveConnectionState(n)` used (without a
try/except guard) by `Wireguard._on_state_changed`. -/
def activeConnectionStateOfNat (n : Nat) : Except PyError ActiveConnectionState :=
  match n with
  | 0 => .ok .UNKNOWN
  | 1 => .ok .ACTIVATING
  | 2 => .ok .ACTIVATED
  | 3 => .ok .DEACTIVATING
  | 4 => .ok .DEACTIVATED
  | _ => .error (.valueError "not a valid ActiveConnectionState")

/-- PyGObject conversion `NM.ActiveConnectionStateReason(n)` used (without a
try/except guard) by `Wireguard._on_state_changed`. -/
def activeConnectionStateReasonOfNat (n : Nat) :
    Except PyError ActiveConnectionStateReason :=
  match n with
  | 0 => .ok .UNKNOWN
  | 1 => .ok .NONE
  | 2 => .ok .USER_DISCONNECTED
  | 3 => .ok .DEVICE_DISCONNECTED
  | 4 => .ok .SERVICE_STOPPED
  | 5 => .ok .IP_CONFIG_INVALID
  | 6 => .ok .CONNECT_TIMEOUT
  | 7 => .ok .SERVICE_START_TIMEOUT
  | 8 => .ok .SERVICE_START_FAILED
  | 9 => .ok .NO_SECRETS
  | 10 => .ok .LOGIN_FAILED
  | 11 => .ok .CONNECTION_REMOVED
  | 12 => .ok .DEPENDENCY_FAILED
  | 13 => .ok .DEVICE_REALIZE_FAILED
  | 14 => .ok .DEVICE_REMOVED
  | _ => .error (.valueError "not a valid ActiveConnectionStateReason")

/-- What `Wireguard._on_state_changed` does after parsing. -/
inductive WireguardSignalAction
  | startLocalAgentListener
  | stopListenerAndNotifyDisconnected
  | ignored
deriving DecidableEq

/-- The signal handler `Wireguard._on_state_changed`: converts the numeric
state and reason with `NM.ActiveConnectionState(state)` and
`NM.ActiveConnectionStateReason(reason)` with no try/except guard, then acts
on ACTIVATED and DEACTIVATED, ignoring other states. -/
def wireguard_on_state_changed (state reason : Nat) :
    Except PyError WireguardSignalAction :=
  match activeConnectionStateOfNat state with
  | .error e => .error e
  | .ok st =>
    match activeConnectionStateReasonOfNat reason with
    | .error e => .error e
    | .ok _ =>
      .ok (if st = .ACTIVATED then .startLocalAgentListener
           else if st = .DEACTIVATED then .stopListenerAndNotifyDisconnected
           else .ignored)

/-- C1: for every numeric (state, reason) pair, the signal handler emits
exactly the event prescribed by the spec section 4.2 translation table
(applied to the parsed codes, unknown codes normalizing to UNKNOWN):
ACTIVATED yields Connected; FAILED with CONNECT_TIMEOUT or
SERVICE_START_TIMEOUT yields Timeout; FAILED with NO_SECRETS or LOGIN_FAILED
yields AuthDenied; FAILED otherwise yields UnexpectedError; DISCONNECTED with
USER_DISCONNECTED yields Disconnected; DISCONNECTED with DEVICE_DISCONNECTED
yields DeviceDisconnected; DISCONNECTED otherwise yields UnexpectedError; any
other state yields no event. -/
theorem activation_signal_matches_spec_table (state reason : Nat) :
    on_state_changed state reason =
      specActivationTable (parseVpnConnectionState state)
        (parseVpnConnectionStateReason reason) := by
  show translateVpnStateChange _ _ = _
  generalize parseVpnConnectionState state = st
  generalize parseVpnConnectionStateReason reason = rs
  cases st <;> cases rs <;> rfl

/-- C3: the core VPN signal handler normalizes the out-of-enum code 999 to the
UNKNOWN sentinel and returns without raising (no event for an unknown state),
while the WireGuard signal handler, which lacks the try/except guard, raises
ValueError on the same numeric code instead of normalizing it: the code
contradicts the never-raise requirement on the signal-handling path. -/
theorem unknown_code_handling_divergence :
    parseVpnConnectionState 999 = .UNKNOWN ∧
    on_state_changed 999 0 = none ∧
    wireguard_on_state_changed 999 0 =
      .error (.valueError "not a valid ActiveConnectionState") ∧
    on_state_changed 6 999 = some (.UnexpectedError .UNKNOWN) :=
  ⟨rfl, rfl, rfl, rfl⟩

/-! ### Reachability check (core/tcpcheck.py) and connection start
(core/networkmanager.py, `LinuxNetworkManager.start`) -/

/-- Outcome of one per-port probe of `is_port_reachable`: either the port
check completed with a boolean, or the probe raised an exception. -/
abbrev ProbeResult := Except PyError Bool

/-- Embedding of `tcpcheck.is_any_port_reachable`: True as soon as one of the
per-port futures completed without an exception and with result True, False
when all the probes failed or reported the port closed (and for an empty port
list, since there are then no futures at all). -/
def is_any_port_reachable (probeResults : List ProbeResult) : Bool :=
  probeResults.any fun r =>
    match r with
    | .ok b => b
    | .error _ => false

/-- One observable step of `LinuxNetworkManager.start`: a NetworkManager
daemon operation, the signal subscription, or an event notified to
subscribers. -/
inductive StartStep
  | daemonAddConnection
  | daemonActivateConnection
  | daemonRemoveConnection (handle : Nat)
  | subscribeStateChangedSignal
  | emit (event : ConnectionEvent)
deriving DecidableEq

/-- Environment of one run of `LinuxNetworkManager.start`: the outcomes of the
per-port reachability probes, the values of the `_cancelled` flag observed at
its two check points (it can be set concurrently by `stop`), and the outcomes
of the add-connection and activate-connection futures. -/
structure StartEnv where
  portProbeResults : List ProbeResult
  cancelledAfterReachabilityCheck : Bool
  cancelledAfterAdd : Bool
  addConnectionResult : Except GLibError Nat
  activateResult : Except GLibError Unit

/-- Embedding of `LinuxNetworkManager.start`: reachability pre-check (Timeout
and return when unreachable), cancellation check (Disconnected and return),
`setup()`/add-connection (TunnelSetupFailed on GLib.GError), second
cancellation check (remove the added connection, Disconnected), activation
plus signal subscription (on GLib.GError: TunnelSetupFailed, then remove the
added connection). Returns the step trace and the daemon profile left behind,
if any. -/
def start (env : StartEnv) : List StartStep × Option Nat :=
  if is_any_port_reachable env.portProbeResults = false then
    ([.emit (.Timeout none)], none)
  else if env.cancelledAfterReachabilityCheck then
    ([.emit (.Disconnected none)], none)
  else
    match env.addConnectionResult with
    | .error _ =>
      ([.daemonAddConnection, .emit (.TunnelSetupFailed .NONE)], none)
    | .ok handle =>
      if env.cancelledAfterAdd then
        ([.daemonAddConnection, .daemonRemoveConnection handle,
          .emit (.Disconnected none)], none)
      else
        match env.activateResult with
        | .ok _ =>
          ([.daemonAddConnection, .daemonActivateConnection,
            .subscribeStateChangedSignal], some handle)
        | .error _ =>
          ([.daemonAddConnection, .daemonActivateConnection,
            .emit (.TunnelSetupFailed .NONE), .daemonRemoveConnection handle],
           none)

/-- Whether a step touches the NetworkManager daemon. -/
def isDaemonCall : StartStep → Bool
  | .daemonAddConnection => true
  | .daemonActivateConnection => true
  | .daemonRemoveConnection _ => true
  | .subscribeStateChangedSignal => true
  | .emit _ => false

/-- Daemon operations of a start trace. -/
def daemonCalls (trace : List StartStep) : List StartStep :=
  trace.filter isDaemonCall

/-- Events notified to subscribers during a start trace. -/
def emittedEvents (trace : List StartStep) : List ConnectionEvent :=
  trace.filterMap fun s =>
    match s with
    | .emit e => some e
    | _ => none

/-- Handles passed to `removeConnection` during a start trace. -/
def removedHandles (trace : List StartStep) : List Nat :=
  trace.filterMap fun s =>
    match s with
    | .daemonRemoveConnection h => some h
    | _ => none

/-- C4: when the reachability check passes, the run is not cancelled,
addConnection succeeds with some handle and activate fails, then
removeConnection is called exactly once, with precisely that handle, exactly
one event is emitted and it is TunnelSetupFailed, and no daemon connection
profile is left behind. -/
theorem activate_failure_removes_added_connection (env : StartEnv)
    (handle : Nat) (err : GLibError)
    (hreach : is_any_port_reachable env.portProbeResults = true)
    (hc1 : env.cancelledAfterReachabilityCheck = false)
    (hc2 : env.cancelledAfterAdd = false)
    (hadd : env.addConnectionResult = .ok handle)
    (hact : env.activateResult = .error err) :
    removedHandles (start env).1 = [handle] ∧
    emittedEvents (start env).1 = [.TunnelSetupFailed .NONE] ∧
    (start env).2 = none := by
  simp [start, hreach, hc1, hc2, hadd, hact, removedHandles, emittedEvents]

/-- Concrete environment exercising the activate-failure path of `start`. -/
def envActivateFails : StartEnv :=
  ⟨[.ok true], false, false, .ok 42, .error .gerror⟩

/-- Witness for C4 at a concrete environment: probes reachable, add returns
handle 42, activate fails. -/
theorem activate_failure_removes_added_connection_witness :
    is_any_port_reachable envActivateFails.portProbeResults = true ∧
    removedHandles (start envActivateFails).1 = [42] ∧
    emittedEvents (start envActivateFails).1 = [.TunnelSetupFailed .NONE] ∧
    (start envActivateFails).2 = none :=
  ⟨rfl, activate_failure_removes_added_connection envActivateFails 42 .gerror
    rfl rfl rfl rfl rfl⟩

/-- C5: when the reachability pre-check reports the server unreachable, no
daemon operation at all is invoked (in particular neither addConnection nor
activate) and exactly one event is emitted, a Timeout. -/
theorem unreachable_server_touches_no_daemon (env : StartEnv)
    (hreach : is_any_port_reachable env.portProbeResults = false) :
    daemonCalls (start env).1 = [] ∧
    emittedEvents (start env).1 = [.Timeout none] ∧
    (start env).1 = [.emit (.Timeout none)] := by
  simp [start, hreach, daemonCalls, emittedEvents, isDaemonCall]

/-- Concrete environment whose only probe raises, so the server is
unreachable. -/
def envUnreachable : StartEnv :=
  ⟨[.error (.valueError "probe failed")], false, false, .ok 7, .ok ()⟩

/-- Witness for C5 at a concrete environment whose single probe raised. -/
theorem unreachable_server_touches_no_daemon_witness :
    is_any_port_reachable envUnreachable.portProbeResults = false ∧
    daemonCalls (start envUnreachable).1 = [] ∧
    emittedEvents (start envUnreachable).1 = [.Timeout none] ∧
    (start envUnreachable).1 = [.emit (.Timeout none)] :=
  ⟨rfl, unreachable_server_touches_no_daemon envUnreachable rfl⟩

/-- Concrete environment with an empty TCP port list. -/
def envEmptyPorts : StartEnv :=
  ⟨[], false, false, .ok 7, .ok ()⟩

/-- C10: `is_any_port_reachable` returns True exactly when at least one probe
completed without raising and reported the port open; hence it returns False
on an empty port list and counts a raising probe as unreachable; and `start`
on a server with an empty TCP port list emits exactly one Timeout without
invoking any daemon operation. -/
theorem any_port_reachable_iff_some_probe_ok :
    (∀ probeResults : List ProbeResult,
      is_any_port_reachable probeResults = true ↔
        ∃ r ∈ probeResults, r = Except.ok true) ∧
    is_any_port_reachable [] = false ∧
    (∀ env : StartEnv, env.portProbeResults = [] →
      daemonCalls (start env).1 = [] ∧
      emittedEvents (start env).1 = [.Timeout none]) := by
  refine ⟨fun probeResults => ?_, rfl, fun env h => ?_⟩
  · simp only [is_any_port_reachable, List.any_eq_true]
    constructor
    · rintro ⟨r, hr, hp⟩
      refine ⟨r, hr, ?_⟩
      match r with
      | .ok true => rfl
      | .ok false => exact absurd hp (by simp)
      | .error e => exact absurd hp (by simp)
    · rintro ⟨r, hr, rfl⟩
      exact ⟨_, hr, rfl⟩
  · have hfalse : is_any_port_reachable env.portProbeResults = false := by
      rw [h]; rfl
    constructor
    · simp [start, hfalse, daemonCalls, isDaemonCall]
    · simp [start, hfalse, emittedEvents]

/-- Witness for C10: a raising probe alongside an open port makes the check
succeed, and the empty-port-list environment emits exactly one Timeout with
no daemon call. -/
theorem any_port_reachable_iff_some_probe_ok_witness :
    is_any_port_reachable
      [Except.error (PyError.valueError "probe failed"), Except.ok true] = true ∧
    daemonCalls (start envEmptyPorts).1 = [] ∧
    emittedEvents (start envEmptyPorts).1 = [.Timeout none] :=
  ⟨(any_port_reachable_iff_some_probe_ok.1 _).mpr
      ⟨Except.ok true, by simp, rfl⟩,
    any_port_reachable_iff_some_probe_ok.2.2 envEmptyPorts rfl⟩

/-! ### Default kill switch (killswitch/default: nmkillswitch.py and
killswitch_connection_handler.py) -/

/-- Identity of a kill switch connection profile, as produced by
`_get_connection_id` of the default handler for the full and routed variants
(permanent and non-permanent). -/
inductive KSConnId
  | full (permanent : Bool)
  | routed (permanent : Bool)
deriving DecidableEq

/-- NetworkManager-side state the default kill switch handler consults:
whether each kill switch profile exists (`get_connection`), whether the
full-block profiles are active (`get_active_connection`), and whether the
daemon connectivity check is enabled. -/
structure NMProfileState where
  full_perm_exists : Bool
  full_perm_active : Bool
  full_nonperm_exists : Bool
  full_nonperm_active : Bool
  routed_perm_exists : Bool
  routed_nonperm_exists : Bool
  connectivity_check_enabled : Bool
deriving DecidableEq

/-- The `nm_client.get_connection(conn_id)` lookup, as a boolean existence
check. -/
def get_connection (s : NMProfileState) : KSConnId → Bool
  | .full true => s.full_perm_exists
  | .full false => s.full_nonperm_exists
  | .routed true => s.routed_perm_exists
  | .routed false => s.routed_nonperm_exists

/-- The `nm_client.get_active_connection(conn_id)` lookup for the full-block
profile of the given permanence (the only ids the default handler queries for
active status, in `add_full_killswitch_connection`). -/
def get_active_full (s : NMProfileState) (permanent : Bool) : Bool :=
  if permanent then s.full_perm_active else s.full_nonperm_active

/-- Observable daemon operation performed by the kill switch handler. -/
inductive KSAction
  | disable_connectivity_check
  | add_connection (id : KSConnId) (save_to_disk : Bool)
  | remove_connection (id : KSConnId)
deriving DecidableEq

/-- Effect of `nm_client.add_connection_async` for a kill switch profile: the
profile exists and (its dummy interface having reached the activated state,
which is what resolves the future) is active. -/
def nm_add_connection (s : NMProfileState) : KSConnId → NMProfileState
  | .full true => { s with full_perm_exists := true, full_perm_active := true }
  | .full false => { s with full_nonperm_exists := true, full_nonperm_active := true }
  | .routed true => { s with routed_perm_exists := true }
  | .routed false => { s with routed_nonperm_exists := true }

/-- Effect of `nm_client.remove_connection_async` on an existing profile:
the profile (and its active connection) is gone; on a missing profile the
daemon operation fails. -/
def nm_remove_connection (s : NMProfileState) (id : KSConnId) :
    Except GLibError NMProfileState :=
  if get_connection s id = true then
    .ok (match id with
      | .full true => { s with full_perm_exists := false, full_perm_active := false }
      | .full false => { s with full_nonperm_exists := false, full_nonperm_active := false }
      | .routed true => { s with routed_perm_exists := false }
      | .routed false => { s with routed_nonperm_exists := false })
  else
    .error .gerror

/-- Embedding of `KillSwitchConnectionHandler._remove_connection`: look the
profile up first and treat absence as success, so the daemon removal is only
issued for an existing profile. -/
def handler_remove_connection (s : NMProfileState) (id : KSConnId) :
    Except GLibError (List KSAction × NMProfileState) :=
  if get_connection s id = true then
    match nm_remove_connection s id with
    | .ok s2 => .ok ([.remove_connection id], s2)
    | .error e => .error e
  else
    .ok ([], s)

/-- Embedding of `_ensure_connectivity_check_is_disabled`. -/
def ensure_connectivity_check_disabled (s : NMProfileState) :
    List KSAction × NMProfileState :=
  if s.connectivity_check_enabled then
    ([.disable_connectivity_check], { s with connectivity_check_enabled := false })
  else
    ([], s)

/-- Embedding of `add_full_killswitch_connection(permanent)`: disable the
connectivity check, return early when the full profile of this permanence is
already active, otherwise add it (saved to disk when permanent) and then
remove the opposite-permanence full profile. -/
def add_full_killswitch_connection (permanent : Bool) (s : NMProfileState) :
    Except GLibError (List KSAction × NMProfileState) := do
  let (t1, s1) := ensure_connectivity_check_disabled s
  if get_active_full s1 permanent = true then
    return (t1, s1)
  else
    let s2 := nm_add_connection s1 (.full permanent)
    let (t3, s3) ← handler_remove_connection s2 (.full (!permanent))
    return (t1 ++ [.add_connection (.full permanent) permanent] ++ t3, s3)

/-- Embedding of `add_routed_killswitch_connection(server_ip, permanent)`:
disable the connectivity check and add the routed profile (whose IPv4 routes
exclude only the server IP) without an existence pre-check. -/
def add_routed_killswitch_connection (_server_ip : String) (permanent : Bool)
    (s : NMProfileState) : Except GLibError (List KSAction × NMProfileState) :=
  let (t1, s1) := ensure_connectivity_check_disabled s
  let s2 := nm_add_connection s1 (.routed permanent)
  .ok (t1 ++ [.add_connection (.routed permanent) permanent], s2)

/-- Embedding of `remove_full_killswitch_connection`: remove the permanent
then the non-permanent full profile, tolerating absence. -/
def remove_full_killswitch_connection (s : NMProfileState) :
    Except GLibError (List KSAction × NMProfileState) := do
  let (t1, s1) ← handler_remove_connection s (.full true)
  let (t2, s2) ← handler_remove_connection s1 (.full false)
  return (t1 ++ t2, s2)

/-- Embedding of `remove_routed_killswitch_connection`: remove the permanent
then the non-permanent routed profile, tolerating absence. -/
def remove_routed_killswitch_connection (s : NMProfileState) :
    Except GLibError (List KSAction × NMProfileState) := do
  let (t1, s1) ← handler_remove_connection s (.routed true)
  let (t2, s2) ← handler_remove_connection s1 (.routed false)
  return (t1 ++ t2, s2)

/-- Embedding of `NMKillSwitch.enable(vpn_server, permanent)`: add the full
kill switch, remove any routed kill switch, and, when a server IP is given,
add the routed kill switch for it and then remove the full kill switch. -/
def nmkillswitch_enable (vpn_server_ip : Option String) (permanent : Bool)
    (s : NMProfileState) : Except GLibError (List KSAction × NMProfileState) := do
  let (t1, s1) ← add_full_killswitch_connection permanent s
  let (t2, s2) ← remove_routed_killswitch_connection s1
  match vpn_server_ip with
  | none => return (t1 ++ t2, s2)
  | some ip => do
    let (t3, s3) ← add_routed_killswitch_connection ip permanent s2
    let (t4, s4) ← remove_full_killswitch_connection s3
    return (t1 ++ t2 ++ t3 ++ t4, s4)

/-- Embedding of `NMKillSwitch.disable`: remove the full and then the routed
kill switch profiles, both permanence variants, tolerating absence. -/
def nmkillswitch_disable (s : NMProfileState) :
    Except GLibError (List KSAction × NMProfileState) := do
  let (t1, s1) ← remove_full_killswitch_connection s
  let (t2, s2) ← remove_routed_killswitch_connection s1
  return (t1 ++ t2, s2)

/-- Action trace of a kill switch run (empty when the run errored). -/
def trace_of (r : Except GLibError (List KSAction × NMProfileState)) :
    List KSAction :=
  match r with
  | .ok pr => pr.1
  | .error _ => []

/-- Whether an action removes a full-block profile (of either permanence). -/
def is_full_removal : KSAction → Bool
  | .remove_connection (.full _) => true
  | _ => false

/-- Whether an action removes a routed profile (of either permanence). -/
def is_routed_removal : KSAction → Bool
  | .remove_connection (.routed _) => true
  | _ => false

/-- Whether an action adds a routed profile (of either permanence). -/
def is_routed_add : KSAction → Bool
  | .add_connection (.routed _) _ => true
  | _ => false

/-- Whether a kill switch run completed without a daemon error. -/
def ks_run_ok : Except GLibError (List KSAction × NMProfileState) → Bool
  | .ok _ => true
  | .error _ => false

/-- Claimed ordering of the spec for `enableFullBlock(serverIp)`: in the
trace, every removal of a full-block profile is preceded by an addition of a
routed profile. -/
@[reducible] def routed_added_before_full_removed (t : List KSAction) : Prop :=
  ∀ p ∈ t.enum, is_full_removal p.2 = true →
    ∃ q ∈ t.enum, is_routed_add q.2 = true ∧ q.1 < p.1

/-- State in which only the permanent full-block profile exists (for example
after a permanent kill switch was enabled and the process restarted without
its interface coming up as active). -/
def ks_cex_state : NMProfileState :=
  ⟨true, false, false, false, false, false, false⟩

/-- C2 counterexample: enabling the kill switch with a server IP and
non-permanent profiles from `ks_cex_state` produces a trace in which the
opposite-permanence full-block profile is removed (inside
`add_full_killswitch_connection`) before the routed profile is added, so the
claimed "routed profile added before the full-block profile is removed"
ordering fails on this input. -/
theorem enable_full_block_ordering_counterexample :
    trace_of (nmkillswitch_enable (some "1.2.3.4") false ks_cex_state) =
      [.add_connection (.full false) false,
       .remove_connection (.full true),
       .add_connection (.routed false) false,
       .remove_connection (.full false)] ∧
    ¬ routed_added_before_full_removed
        (trace_of (nmkillswitch_enable (some "1.2.3.4") false ks_cex_state)) := by
  constructor
  · rfl
  · rw [show trace_of (nmkillswitch_enable (some "1.2.3.4") false ks_cex_state) =
      [.add_connection (.full false) false,
       .remove_connection (.full true),
       .add_connection (.routed false) false,
       .remove_connection (.full false)] from rfl]
    decide

/-- Ordering discipline of an enable trace: every removal of the
requested-permanence full-block profile comes after the routed profile was
added; every removal of a full-block profile comes after the
requested-permanence full-block or the routed profile was added; and every
removal of a routed profile comes after the requested-permanence full-block
profile was added, unless that full-block profile was already active when the
run started. -/
@[reducible] def add_before_remove_in (t : List KSAction) (permanent : Bool)
    (full_already_active : Bool) : Prop :=
  (∀ p ∈ t.enum, p.2 = KSAction.remove_connection (.full permanent) →
    ∃ q ∈ t.enum, q.1 < p.1 ∧
      q.2 = KSAction.add_connection (.routed permanent) permanent) ∧
  (∀ p ∈ t.enum, is_full_removal p.2 = true →
    ∃ q ∈ t.enum, q.1 < p.1 ∧
      (q.2 = KSAction.add_connection (.full permanent) permanent ∨
       q.2 = KSAction.add_connection (.routed permanent) permanent)) ∧
  (∀ p ∈ t.enum, is_routed_removal p.2 = true →
    (∃ q ∈ t.enum, q.1 < p.1 ∧
      q.2 = KSAction.add_connection (.full permanent) permanent) ∨
      full_already_active = true)

/-- Corrected ordering property of `NMKillSwitch.enable` with a server IP:
the run succeeds and its trace observes the add-before-remove discipline of
`add_before_remove_in`. -/
@[reducible] def enable_ordering_ok (s : NMProfileState) (permanent : Bool)
    (server_ip : String) : Prop :=
  ks_run_ok (nmkillswitch_enable (some server_ip) permanent s) = true ∧
  add_before_remove_in (trace_of (nmkillswitch_enable (some server_ip) permanent s))
    permanent (get_active_full s permanent)

set_option maxHeartbeats 2000000 in
/-- C2 amended: for every initial daemon state, permanence and server IP, the
trace of `NMKillSwitch.enable(serverIp, permanent)` adds each blocking
profile before removing the profile it supersedes: the routed profile is
added before the requested-permanence full-block profile is removed, every
full-block removal is preceded by the addition of the requested full-block or
of the routed profile, and every routed removal is preceded by the addition
of the requested full-block profile unless that profile was already active
when the run started. -/
theorem enable_full_block_add_before_remove (s : NMProfileState)
    (permanent : Bool) (server_ip : String) :
    enable_ordering_ok s permanent server_ip := by
  have hindep : nmkillswitch_enable (some server_ip) permanent s =
      nmkillswitch_enable (some "") permanent s := rfl
  unfold enable_ordering_ok
  rw [hindep]
  obtain ⟨a, b, c, d, e, f, g⟩ := s
  cases permanent <;> cases a <;> cases b <;> cases c <;> cases d <;>
    cases e <;> cases f <;> cases g <;> decide

/-- Witness for C2 amended at a concrete input: the counterexample state with
non-permanent profiles and a concrete server IP. -/
theorem enable_full_block_add_before_remove_witness :
    enable_ordering_ok ks_cex_state false "1.2.3.4" :=
  enable_full_block_add_before_remove ks_cex_state false "1.2.3.4"

/-- Whether no full-block and no routed kill switch profile of either
permanence variant exists. -/
def no_killswitch_profiles (s : NMProfileState) : Bool :=
  !s.full_perm_exists && !s.full_nonperm_exists &&
  !s.routed_perm_exists && !s.routed_nonperm_exists

/-- C8: from every daemon state, `NMKillSwitch.disable` succeeds (absence of
a profile to remove is treated as success), leaves no full-block and no
routed profile of either permanence variant, and a second disable also
succeeds, performs no daemon operation and leaves the state unchanged. -/
theorem disable_idempotent_and_total (s : NMProfileState) :
    ∃ t1 s1, nmkillswitch_disable s = .ok (t1, s1) ∧
      no_killswitch_profiles s1 = true ∧
      nmkillswitch_disable s1 = .ok ([], s1) := by
  obtain ⟨a, b, c, d, e, f, g⟩ := s
  cases a <;> cases c <;> cases e <;> cases f <;>
    exact ⟨_, _, rfl, rfl, rfl⟩

/-! ### WireGuard kill switch route polling
(killswitch/wireguard/killswitch_connection_handler.py,
`_wait_for_vpn_server_route`) -/

/-- The bounded retry delays of `_wait_for_vpn_server_route`, in seconds. -/
def route_poll_delays : List ℚ := [1/2, 1/2, 1, 1, 2]

/-- The message of the TimeoutError raised when the retries are exhausted. -/
def route_timeout_message (found : Bool) : String :=
  if found then "Error waiting for server route to be added"
  else "Error waiting for server route to be removed"

/-- The retry loop of `_wait_for_vpn_server_route`: for each delay, run the
ip-route command (the k-th poll reporting whether the route regex matched),
return as soon as the match equals the wanted condition, otherwise sleep the
delay; raise the built-in TimeoutError after the last iteration. Returns the
outcome together with the list of sleeps performed. -/
def wait_for_route_go (found : Bool) (routeMatched : Nat → Bool) :
    List ℚ → Nat → List ℚ → Except PyError Unit × List ℚ
  | [], _, sleeps => (.error (.timeoutError (route_timeout_message found)), sleeps)
  | d :: rest, k, sleeps =>
    if routeMatched k = found then (.ok (), sleeps)
    else wait_for_route_go found routeMatched rest (k + 1) (sleeps ++ [d])

/-- Embedding of `_wait_for_vpn_server_route(server_ip, interface_name,
found)`: poll with the bounded delays, starting with no sleep performed. -/
def wait_for_vpn_server_route (found : Bool) (routeMatched : Nat → Bool) :
    Except PyError Unit × List ℚ :=
  wait_for_route_go found routeMatched route_poll_delays 0 []

/-- C7 counterexample: when the route is never observed, the install wait and
the removal wait both raise the same built-in TimeoutError constructor, told
apart only by their message strings; no distinct
RouteInstallTimeout/RouteRemovalTimeout error type exists in the code. -/
theorem route_wait_raises_plain_timeout_error :
    (wait_for_vpn_server_route true (fun _ => false)).1 =
      .error (.timeoutError "Error waiting for server route to be added") ∧
    (wait_for_vpn_server_route false (fun _ => true)).1 =
      .error (.timeoutError "Error waiting for server route to be removed") :=
  ⟨rfl, rfl⟩

/-- C7 amended: the route wait polls with exactly the bounded delays 0.5s,
0.5s, 1s, 1s, 2s (5s of sleeping in total); when the route condition is never
observed it sleeps through all five delays and raises the built-in
TimeoutError whose message distinguishes install from removal; and it returns
normally as soon as the condition is first observed, having slept only the
delays before that poll. -/
theorem route_wait_bounded_retries :
    (route_poll_delays = [1/2, 1/2, 1, 1, 2] ∧ route_poll_delays.sum = 5) ∧
    (∀ found routeMatched, (∀ k, k < 5 → routeMatched k ≠ found) →
      wait_for_vpn_server_route found routeMatched =
        (.error (.timeoutError (route_timeout_message found)),
          route_poll_delays)) ∧
    (∀ found routeMatched k, k < 5 → (∀ j, j < k → routeMatched j ≠ found) →
      routeMatched k = found →
      wait_for_vpn_server_route found routeMatched =
        (.ok (), route_poll_delays.take k)) := by
  refine ⟨⟨rfl, by norm_num [route_poll_delays]⟩,
    fun found routeMatched h => ?_, ?_⟩
  · have h0 := h 0 (by omega)
    have h1 := h 1 (by omega)
    have h2 := h 2 (by omega)
    have h3 := h 3 (by omega)
    have h4 := h 4 (by omega)
    simp only [wait_for_vpn_server_route, route_poll_delays, wait_for_route_go,
      if_neg h0, if_neg h1, if_neg h2, if_neg h3, if_neg h4]
    rfl
  · intro found routeMatched k hk hbefore hfound
    interval_cases k
    · simp only [wait_for_vpn_server_route, route_poll_delays,
        wait_for_route_go, if_pos hfound]
      rfl
    · have h0 := hbefore 0 (by omega)
      simp only [wait_for_vpn_server_route, route_poll_delays,
        wait_for_route_go, if_neg h0, if_pos hfound]
      rfl
    · have h0 := hbefore 0 (by omega)
      have h1 := hbefore 1 (by omega)
      simp only [wait_for_vpn_server_route, route_poll_delays,
        wait_for_route_go, if_neg h0, if_neg h1, if_pos hfound]
      rfl
    · have h0 := hbefore 0 (by omega)
      have h1 := hbefore 1 (by omega)
      have h2 := hbefore 2 (by omega)
      simp only [wait_for_vpn_server_route, route_poll_delays,
        wait_for_route_go, if_neg h0, if_neg h1, if_neg h2, if_pos hfound]
      rfl
    · have h0 := hbefore 0 (by omega)
      have h1 := hbefore 1 (by omega)
      have h2 := hbefore 2 (by omega)
      have h3 := hbefore 3 (by omega)
      simp only [wait_for_vpn_server_route, route_poll_delays,
        wait_for_route_go, if_neg h0, if_neg h1, if_neg h2, if_neg h3,
        if_pos hfound]
      rfl

/-- Poll oracle that never observes the route. -/
def route_never_matches : Nat → Bool := fun _ => false

/-- Poll oracle that observes the route from the third poll on. -/
def route_matches_from_third_poll : Nat → Bool := fun k => decide (2 ≤ k)

/-- Witness for C7 amended at concrete poll oracles: exhaustion after all
five sleeps, and early return after two sleeps when the third poll observes
the route. -/
theorem route_wait_bounded_retries_witness :
    wait_for_vpn_server_route true route_never_matches =
      (.error (.timeoutError "Error waiting for server route to be added"),
        route_poll_delays) ∧
    wait_for_vpn_server_route true route_matches_from_third_poll =
      (.ok (), route_poll_delays.take 2) :=
  ⟨route_wait_bounded_retries.2.1 true route_never_matches (by decide),
   route_wait_bounded_retries.2.2 true route_matches_from_third_poll 2
     (by decide) (by decide) (by decide)⟩

/-! ### Local agent listener (protocol/wireguard/local_agent/listener.py and
`Wireguard._start_local_agent_listener`) -/

/-- State of an `AgentListener`: the background task, when one is running,
and the established agent connection, when one exists (task identifiers and
connection identifiers are abstracted as naturals). -/
structure AgentListenerState where
  background_task : Option Nat
  connection : Option Nat
deriving DecidableEq

/-- Observable action of the agent listener. -/
inductive ListenerAction
  | warn_already_started
  | create_background_task (id : Nat)
  | cancel_background_task (id : Nat)
  | forward_request_features
deriving DecidableEq

/-- Embedding of `AgentListener.start`: when a background task already
exists, log a warning and return (the prior task keeps running); otherwise
create the background task. -/
def listener_start (new_task_id : Nat) (s : AgentListenerState) :
    List ListenerAction × AgentListenerState :=
  match s.background_task with
  | some _ => ([.warn_already_started], s)
  | none => ([.create_background_task new_task_id],
      { s with background_task := some new_task_id })

/-- Embedding of `AgentListener.stop`: cancel the background task when one
exists and clear it. -/
def listener_stop (s : AgentListenerState) :
    List ListenerAction × AgentListenerState :=
  match s.background_task with
  | some t => ([.cancel_background_task t], { s with background_task := none })
  | none => ([], s)

/-- Embedding of `Wireguard._start_local_agent_listener`: stop the listener
first when it is running, then start it. -/
def start_local_agent_listener (new_task_id : Nat) (s : AgentListenerState) :
    List ListenerAction × AgentListenerState :=
  let stopped := if s.background_task.isSome then listener_stop s else ([], s)
  let started := listener_start new_task_id stopped.2
  (stopped.1 ++ started.1, started.2)

/-- C6 counterexample: calling `AgentListener.start` while a session is
already running does not stop the prior session: the prior background task is
neither cancelled nor replaced, only a warning is logged and no new session
begins. -/
theorem listener_start_while_running_is_noop :
    listener_start 8 ⟨some 7, none⟩ =
      ([.warn_already_started], ⟨some 7, none⟩) ∧
    (listener_start 8 ⟨some 7, none⟩).2.background_task = some 7 ∧
    ListenerAction.cancel_background_task 7 ∉ (listener_start 8 ⟨some 7, none⟩).1 := by
  refine ⟨rfl, rfl, ?_⟩
  decide

/-- C6 amended: `AgentListener.start` called while a session is running is a
warn-and-return no-op (the prior task keeps running and no second task is
created), and it is the WireGuard caller `_start_local_agent_listener` that
stops a running listener before starting it again, cancelling the prior task
strictly before creating the new one; on either path a single background
task exists afterwards. -/
theorem agent_listener_single_session (s : AgentListenerState)
    (new_task_id : Nat) :
    (∀ t, s.background_task = some t →
      listener_start new_task_id s = ([.warn_already_started], s)) ∧
    (s.background_task = none →
      listener_start new_task_id s =
        ([.create_background_task new_task_id],
          { s with background_task := some new_task_id })) ∧
    (∀ t, s.background_task = some t →
      start_local_agent_listener new_task_id s =
        ([.cancel_background_task t, .create_background_task new_task_id],
          { s with background_task := some new_task_id })) ∧
    (start_local_agent_listener new_task_id s).2.background_task =
      some new_task_id := by
  obtain ⟨bt, conn⟩ := s
  cases bt <;>
    simp [listener_start, listener_stop, start_local_agent_listener]

/-- Witness for C6 amended: with task 7 running, the WireGuard caller cancels
it before creating task 8. -/
theorem agent_listener_single_session_witness :
    start_local_agent_listener 8 ⟨some 7, none⟩ =
      ([.cancel_background_task 7, .create_background_task 8],
        ⟨some 8, none⟩) :=
  (agent_listener_single_session ⟨some 7, none⟩ 8).2.2.1 7 rfl

/-- Embedding of `AgentListener.request_features(features)`: AgentFeatures is
a plain dataclass, so `features` is falsy exactly when it is None; a truthy
features value is forwarded with `self._connection.request_features(...)`,
which raises AttributeError when no connection object exists. -/
def request_features (features : Option Nat) (s : AgentListenerState) :
    Except PyError (List ListenerAction) :=
  match features with
  | none => .ok []
  | some _ =>
    match s.connection with
    | some _ => .ok [.forward_request_features]
    | none => .error (.attributeError
        "NoneType object has no attribute request_features")

/-- C9 counterexample: with the channel not running (no background task, no
connection) and a non-None features value, `request_features` is not a no-op:
it raises AttributeError by dereferencing the absent connection. -/
theorem request_features_not_running_raises :
    (⟨none, none⟩ : AgentListenerState).background_task = none ∧
    request_features (some 1) ⟨none, none⟩ =
      .error (.attributeError
        "NoneType object has no attribute request_features") :=
  ⟨rfl, rfl⟩

/-- C9 amended: `request_features` is a no-op only when features is falsy
(None); with a truthy features value it forwards the update to the current
connection when one exists, and raises AttributeError when none does (in
particular whenever the channel is not running); callers guard on
`is_running` instead. -/
theorem request_features_guarded_by_features_only (features : Option Nat)
    (s : AgentListenerState) :
    (features = none → request_features features s = .ok []) ∧
    (∀ f c, features = some f → s.connection = some c →
      request_features features s = .ok [.forward_request_features]) ∧
    (∀ f, features = some f → s.connection = none →
      request_features features s =
        .error (.attributeError
          "NoneType object has no attribute request_features")) := by
  obtain ⟨bt, conn⟩ := s
  cases features <;> cases conn <;> simp [request_features]

/-- Witness for C9 amended: a connected session forwards features, and a None
features value is skipped. -/
theorem request_features_guarded_by_features_only_witness :
    request_features (some 1) ⟨some 7, some 3⟩ =
      .ok [.forward_request_features] ∧
    request_features none ⟨none, none⟩ = .ok [] :=
  ⟨(request_features_guarded_by_features_only (some 1) ⟨some 7, some 3⟩).2.1
      1 3 rfl rfl,
   (request_features_guarded_by_features_only none ⟨none, none⟩).1 rfl⟩

end ProtonNM
